import Mathlib

/-!
Verification of the photovault image ingestion pipeline.

Shallow embedding of the relevant source files:
  - src/lib/validation.ts   (validateImageFile, ALLOWED_MIME_TYPES, MAX_FILE_SIZE)
  - src/lib/image-processing.ts (processImage, generateStoragePaths)
  - src/lib/supabase.ts     (getSignedUrl, uploadFile, deleteFiles)
  - src/lib/db.ts           (saveImageMetadata, deleteImage)
  - src/app/api/images/route.ts (POST handler, the ingestion orchestrator)

External effects (auth session, rate limiter, form parsing, sharp decode,
sharp encode output, uuid generation, storage upload results, database
insert results, signed url backend) are modelled as an explicit
environment record; the orchestrator is a pure function from that
environment to its HTTP response together with the chronological list of
object-store and database operations it issued.
-/

namespace Photovault

/-- Configuration knobs read from environment variables in
image-processing.ts and validation.ts, with their source defaults. -/
structure Config where
  PREVIEW_WIDTH : Nat
  PREVIEW_QUALITY : Nat
  FULL_WIDTH : Nat
  FULL_QUALITY : Nat
  MAX_FILE_SIZE_MB : Nat

/-- Default values of the configuration knobs (PREVIEW_WIDTH 300,
PREVIEW_QUALITY 40, FULL_WIDTH 2000, FULL_QUALITY 75, max upload 10 MB). -/
def defaultConfig : Config :=
  { PREVIEW_WIDTH := 300
    PREVIEW_QUALITY := 40
    FULL_WIDTH := 2000
    FULL_QUALITY := 75
    MAX_FILE_SIZE_MB := 10 }

/-- Maximum file size in bytes, from validation.ts:
MAX_FILE_SIZE = MAX_FILE_SIZE_MB * 1024 * 1024. -/
def Config.MAX_FILE_SIZE (cfg : Config) : Nat :=
  cfg.MAX_FILE_SIZE_MB * 1024 * 1024

/-- Allowed MIME types for image uploads, from validation.ts. -/
def ALLOWED_MIME_TYPES : List String :=
  ["image/jpeg", "image/png", "image/webp", "image/gif",
   "image/heic", "image/heif"]

/-- The relevant fields of the browser File object consumed by
validateImageFile and the POST handler. -/
structure FileInfo where
  name : String
  type : String
  size : Nat

/-- Return shape of validateImageFile in validation.ts. -/
structure ValidationResult where
  valid : Bool
  error : Option String

/-- Embedding of validateImageFile from validation.ts: reject a MIME type
outside the allow-list, then reject a size strictly greater than
MAX_FILE_SIZE, otherwise accept. -/
def validateImageFile (cfg : Config) (file : FileInfo) : ValidationResult :=
  if !(ALLOWED_MIME_TYPES.contains file.type) then
    { valid := false
      error := some ("Invalid file type. Allowed types: "
        ++ String.intercalate ", " ALLOWED_MIME_TYPES) }
  else if file.size > cfg.MAX_FILE_SIZE then
    { valid := false
      error := some ("File size exceeds "
        ++ toString (cfg.MAX_FILE_SIZE / (1024 * 1024)) ++ "MB limit") }
  else
    { valid := true, error := none }

/-- The width and height fields of the sharp metadata object; sharp may
report either as undefined, modelled as none. -/
structure SharpMetadata where
  width : Option Nat
  height : Option Nat

/-- Byte lengths of the two encoded output buffers produced by the
third-party sharp encoder, abstracted as environment data. -/
structure EncodedSizes where
  previewSize : Nat
  fullSize : Nat

/-- JavaScript expression (x || d) on an optional number: undefined and 0
are falsy and replaced by the default d. Used by processImage for
metadata.width || 1920 and metadata.height || 1080. -/
def jsOr (x : Option Nat) (d : Nat) : Nat :=
  match x with
  | some v => if v = 0 then d else v
  | none => d

/-- Math.round (num / den) for nonnegative arguments under exact rational
arithmetic: round half up, computed as floor ((2 * num + den) / (2 * den))
in natural division. -/
def jsRound (num den : Nat) : Nat :=
  (2 * num + den) / (2 * den)

/-- One derivative as returned by processImage: recorded width, recorded
height and encoded byte size (the buffer itself is third-party encoder
output and is abstracted away). -/
structure DerivativeInfo where
  width : Nat
  height : Nat
  size : Nat

/-- Return shape of processImage in image-processing.ts. -/
structure ProcessedImage where
  preview : DerivativeInfo
  full : DerivativeInfo
  filename : String

/-- Embedding of processImage from image-processing.ts. The uuid produced
by uuidv4 is passed in as uniqueId; the decoded sharp metadata and the
encoded buffer sizes come from the environment. Dimension logic is exactly
the source: originalWidth = metadata.width || 1920, originalHeight =
metadata.height || 1080, previewWidth = min PREVIEW_WIDTH originalWidth,
previewHeight = round (previewWidth / originalWidth * originalHeight), and
the same for the full profile with FULL_WIDTH. -/
def processImage (cfg : Config) (meta : SharpMetadata) (sizes : EncodedSizes)
    (uniqueId : String) : ProcessedImage :=
  let filename := uniqueId ++ ".webp"
  let originalWidth := jsOr meta.width 1920
  let originalHeight := jsOr meta.height 1080
  let previewWidth := min cfg.PREVIEW_WIDTH originalWidth
  let previewHeight := jsRound (previewWidth * originalHeight) originalWidth
  let fullWidth := min cfg.FULL_WIDTH originalWidth
  let fullHeight := jsRound (fullWidth * originalHeight) originalWidth
  { preview := { width := previewWidth, height := previewHeight
                 size := sizes.previewSize }
    full := { width := fullWidth, height := fullHeight
              size := sizes.fullSize }
    filename := filename }

/-- Return shape of generateStoragePaths. -/
structure StoragePaths where
  previewPath : String
  fullPath : String

/-- Embedding of generateStoragePaths from image-processing.ts:
previewPath = userId/previews/filename, fullPath = userId/full/filename. -/
def generateStoragePaths (userId : String) (filename : String) :
    StoragePaths :=
  { previewPath := userId ++ "/previews/" ++ filename
    fullPath := userId ++ "/full/" ++ filename }

/-- Default value of the expiresIn parameter of getSignedUrl in
supabase.ts (one hour). -/
def getSignedUrlDefaultExpiresIn : Nat := 3600

/-- Embedding of getSignedUrl from supabase.ts: ask the storage backend
for a signed url; on a backend error return none (the error is only
logged), otherwise return the url. The backend is modelled as a function
from path and expiry to an Except result. -/
def getSignedUrl (backend : String → Nat → Except String String)
    (path : String) (expiresIn : Nat) : Option String :=
  match backend path expiresIn with
  | Except.error _ => none
  | Except.ok url => some url

/-- Row of the images table carrying the fields inserted by
saveImageMetadata in db.ts (id assigned by the database). -/
structure ImageRecord where
  id : String
  user_id : String
  filename : String
  original_filename : String
  preview_path : String
  full_path : String
  file_size_preview : Nat
  file_size_full : Nat
  mime_type : String
  width : Nat
  height : Nat
deriving DecidableEq

/-- Embedding of saveImageMetadata from db.ts: the database insert either
fails (returning null, modelled by insertResult = none) or assigns a fresh
id and returns the inserted row. -/
def saveImageMetadata (insertResult : Option String) (userId : String)
    (filename : String) (originalFilename : String) (previewPath : String)
    (fullPath : String) (previewSize : Nat) (fullSize : Nat)
    (mimeType : String) (width : Nat) (height : Nat) : Option ImageRecord :=
  match insertResult with
  | none => none
  | some newId =>
      some { id := newId
             user_id := userId
             filename := filename
             original_filename := originalFilename
             preview_path := previewPath
             full_path := fullPath
             file_size_preview := previewSize
             file_size_full := fullSize
             mime_type := mimeType
             width := width
             height := height }

/-- Session returned by getCurrentUser. -/
structure Session where
  userId : String

/-- One externally visible object-store or database operation issued by
the POST handler, in chronological order. upload and removeObjects are the
storage calls uploadFile and deleteFiles; insertImage is the database
insert performed by saveImageMetadata; createSignedUrl is the signed url
request. -/
inductive StoreEvent where
  | upload (path : String) (contentType : String)
  | insertImage (userId : String) (filename : String)
      (originalFilename : String) (previewPath : String) (fullPath : String)
      (previewSize : Nat) (fullSize : Nat) (mimeType : String)
      (width : Nat) (height : Nat)
  | removeObjects (paths : List String)
  | createSignedUrl (path : String) (expiresIn : Nat)
deriving DecidableEq

/-- Predicate selecting upload events. -/
def StoreEvent.isUpload : StoreEvent → Bool
  | StoreEvent.upload _ _ => true
  | _ => false

/-- Predicate selecting database insert events. -/
def StoreEvent.isInsert : StoreEvent → Bool
  | StoreEvent.insertImage _ _ _ _ _ _ _ _ _ _ => true
  | _ => false

/-- Predicate selecting object deletion events. -/
def StoreEvent.isRemove : StoreEvent → Bool
  | StoreEvent.removeObjects _ => true
  | _ => false

/-- Success or error outcome of one ingestion request: the fields of the
JSON body returned by the POST handler together with the HTTP status. -/
structure ApiResponse where
  success : Bool
  error : Option String
  dataImage : Option ImageRecord
  previewUrl : Option String
  fullUrl : Option String
  status : Nat
deriving DecidableEq

/-- Results of all external effects one POST request can perform, fixed up
front so the handler becomes a pure function. decoded = none models the
sharp metadata call throwing on undecodable input; uploadPreviewOk and
uploadFullOk are the success flags of the two uploadFile calls; insertedId
= none models the database insert failing. rateLimitMessage stands for the
output of formatRateLimitError. -/
structure UploadEnv where
  session : Option Session
  rateLimitOk : Bool
  rateLimitMessage : String
  file : Option FileInfo
  decoded : Option SharpMetadata
  sizes : EncodedSizes
  uniqueId : String
  uploadPreviewOk : Bool
  uploadFullOk : Bool
  insertedId : Option String
  signBackend : String → Nat → Except String String

/-- Embedding of the POST handler of src/app/api/images/route.ts: check
session, rate limit, file presence and validateImageFile; run processImage
(an undecodable input throws and is answered by the catch-all with 500
Failed to upload image); compute storage paths; issue both uploads (via
Promise.all, both always issued) and fail with 500 on any upload error
without any compensation; insert the metadata row and fail with 500 on a
null result without any compensation; finally request two signed urls
(defaulted expiry) mapping null to the empty string, and answer 200 with
the record and urls. Returns the response and the chronological event
trace. -/
def postImages (cfg : Config) (env : UploadEnv) :
    ApiResponse × List StoreEvent :=
  match env.session with
  | none =>
      ({ success := false, error := some "Unauthorized", dataImage := none
         previewUrl := none, fullUrl := none, status := 401 }, [])
  | some session =>
    if !env.rateLimitOk then
      ({ success := false, error := some env.rateLimitMessage
         dataImage := none, previewUrl := none, fullUrl := none
         status := 429 }, [])
    else
      match env.file with
      | none =>
          ({ success := false, error := some "No file provided"
             dataImage := none, previewUrl := none, fullUrl := none
             status := 400 }, [])
      | some file =>
        let validation := validateImageFile cfg file
        if !validation.valid then
          ({ success := false, error := validation.error, dataImage := none
             previewUrl := none, fullUrl := none, status := 400 }, [])
        else
          match env.decoded with
          | none =>
              ({ success := false, error := some "Failed to upload image"
                 dataImage := none, previewUrl := none, fullUrl := none
                 status := 500 }, [])
          | some meta =>
            let processed := processImage cfg meta env.sizes env.uniqueId
            let paths := generateStoragePaths session.userId
              processed.filename
            let uploadEvents :=
              [StoreEvent.upload paths.previewPath "image/webp",
               StoreEvent.upload paths.fullPath "image/webp"]
            if !(env.uploadPreviewOk && env.uploadFullOk) then
              ({ success := false
                 error := some "Failed to upload image to storage"
                 dataImage := none, previewUrl := none, fullUrl := none
                 status := 500 }, uploadEvents)
            else
              let insertEvent := StoreEvent.insertImage session.userId
                processed.filename file.name paths.previewPath paths.fullPath
                processed.preview.size processed.full.size "image/webp"
                processed.full.width processed.full.height
              match saveImageMetadata env.insertedId session.userId
                  processed.filename file.name paths.previewPath
                  paths.fullPath processed.preview.size processed.full.size
                  "image/webp" processed.full.width processed.full.height with
              | none =>
                  ({ success := false
                     error := some "Failed to save image metadata"
                     dataImage := none, previewUrl := none, fullUrl := none
                     status := 500 }, uploadEvents ++ [insertEvent])
              | some savedImage =>
                  let signEvents :=
                    [StoreEvent.createSignedUrl paths.previewPath
                       getSignedUrlDefaultExpiresIn,
                     StoreEvent.createSignedUrl paths.fullPath
                       getSignedUrlDefaultExpiresIn]
                  let previewUrl := (getSignedUrl env.signBackend
                    paths.previewPath getSignedUrlDefaultExpiresIn).getD ""
                  let fullUrl := (getSignedUrl env.signBackend
                    paths.fullPath getSignedUrlDefaultExpiresIn).getD ""
                  ({ success := true, error := none
                     dataImage := some savedImage
                     previewUrl := some previewUrl
                     fullUrl := some fullUrl, status := 200 },
                   uploadEvents ++ [insertEvent] ++ signEvents)

/-- Row of the images table as seen by deleteImage in db.ts (only the
columns it touches). -/
structure ImageRow where
  id : String
  user_id : String
  preview_path : String
  full_path : String
deriving DecidableEq

/-- Embedding of deleteImage from db.ts over a list model of the images
table. The select with .eq id .eq user_id .single() succeeds only when
exactly one row matches both the image id and the user id; otherwise the
function returns null and the table is unchanged. On a unique match the
delete removes the matching rows and the two storage paths of the row are
returned. -/
def deleteImage (db : List ImageRow) (imageId : String) (userId : String) :
    Option (String × String) × List ImageRow :=
  match db.filter (fun r => r.id == imageId && r.user_id == userId) with
  | [r] =>
      (some (r.preview_path, r.full_path),
       db.filter (fun r => !(r.id == imageId && r.user_id == userId)))
  | _ => (none, db)

/-- Concrete ingestion environment in which both uploads succeed and the
metadata insert fails. -/
def envC1 : UploadEnv :=
  { session := some ⟨"user1"⟩
    rateLimitOk := true
    rateLimitMessage := ""
    file := some ⟨"photo.jpg", "image/jpeg", 1000⟩
    decoded := some ⟨some 4000, some 3000⟩
    sizes := ⟨100, 200⟩
    uniqueId := "uid1"
    uploadPreviewOk := true
    uploadFullOk := true
    insertedId := none
    signBackend := fun _ _ => Except.error "down" }

/-- Concrete ingestion environment in which the preview upload succeeds
and the full upload fails. -/
def envC2 : UploadEnv :=
  { session := some ⟨"user1"⟩
    rateLimitOk := true
    rateLimitMessage := ""
    file := some ⟨"photo.jpg", "image/jpeg", 1000⟩
    decoded := some ⟨some 4000, some 3000⟩
    sizes := ⟨100, 200⟩
    uniqueId := "uid2"
    uploadPreviewOk := true
    uploadFullOk := false
    insertedId := some "img2"
    signBackend := fun _ _ => Except.error "down" }

/-- A file exactly at the default size limit. -/
def fileAtLimit : FileInfo := ⟨"a.jpg", "image/jpeg", 10485760⟩

/-- A file one byte over the default size limit. -/
def fileOverLimit : FileInfo := ⟨"a.jpg", "image/jpeg", 10485761⟩

/-- Concrete ingestion environment whose file is one byte over the size
limit. -/
def envC3 : UploadEnv :=
  { session := some ⟨"user1"⟩
    rateLimitOk := true
    rateLimitMessage := ""
    file := some fileOverLimit
    decoded := some ⟨some 4000, some 3000⟩
    sizes := ⟨100, 200⟩
    uniqueId := "uid3"
    uploadPreviewOk := true
    uploadFullOk := true
    insertedId := some "img3"
    signBackend := fun _ _ => Except.error "down" }

/-- Variant of envC3 whose file is exactly at the size limit. -/
def envC3b : UploadEnv := { envC3 with file := some fileAtLimit }

/-- Concrete fully successful ingestion environment. -/
def envC5 : UploadEnv :=
  { session := some ⟨"user5"⟩
    rateLimitOk := true
    rateLimitMessage := ""
    file := some ⟨"p.png", "image/png", 2048⟩
    decoded := some ⟨some 1000, some 800⟩
    sizes := ⟨30, 60⟩
    uniqueId := "uid5"
    uploadPreviewOk := true
    uploadFullOk := true
    insertedId := some "img5"
    signBackend := fun p _ => Except.ok ("https://signed/" ++ p) }

/-- Concrete ingestion environment whose input passes validation but
cannot be decoded. -/
def envC7 : UploadEnv :=
  { session := some ⟨"user7"⟩
    rateLimitOk := true
    rateLimitMessage := ""
    file := some ⟨"garbage.gif", "image/gif", 0⟩
    decoded := none
    sizes := ⟨0, 0⟩
    uniqueId := "uid7"
    uploadPreviewOk := true
    uploadFullOk := true
    insertedId := some "img7"
    signBackend := fun _ _ => Except.error "down" }

/-- Concrete ingestion environment in which everything succeeds except
the signed url backend, which always fails. -/
def envC8 : UploadEnv :=
  { session := some ⟨"user8"⟩
    rateLimitOk := true
    rateLimitMessage := ""
    file := some ⟨"w.webp", "image/webp", 4096⟩
    decoded := some ⟨some 4000, some 3000⟩
    sizes := ⟨40, 80⟩
    uniqueId := "uid8"
    uploadPreviewOk := true
    uploadFullOk := true
    insertedId := some "img8"
    signBackend := fun _ _ => Except.error "down" }

/-! Helper lemmas. -/

/-- Membership form of the Bool list containment used by
validateImageFile. -/
lemma contains_eq_true_iff (l : List String) (a : String) :
    l.contains a = true ↔ a ∈ l := by
  simp [List.contains, List.elem_iff]

/-- jsRound computes round half up of the exact rational num / den. -/
lemma jsRound_eq_floor (num den : Nat) (hden : 0 < den) :
    jsRound num den = ⌊(num : ℚ) / den + 1 / 2⌋₊ := by
  have hd : (den : ℚ) ≠ 0 := Nat.cast_ne_zero.mpr (Nat.pos_iff_ne_zero.mp hden)
  have hcast : (num : ℚ) / den + 1 / 2
      = ((2 * num + den : ℕ) : ℚ) / ((2 * den : ℕ) : ℚ) := by
    push_cast
    field_simp
    ring
  rw [jsRound, hcast, Nat.floor_div_eq_div]

/-- Appending a common prefix of owner id and separator is injective in
the final filename segment. -/
lemma string_append_left_cancel (u s f1 f2 : String)
    (h : u ++ s ++ f1 = u ++ s ++ f2) : f1 = f2 := by
  apply String.ext
  have hd := congrArg String.data h
  simp only [String.data_append, List.append_assoc] at hd
  exact List.append_cancel_left (List.append_cancel_left hd)

/-- A path through the previews folder never equals a path through the
full folder for the same owner, whatever the filenames are. -/
lemma previews_path_ne_full_path (u f1 f2 : String) :
    u ++ "/previews/" ++ f1 ≠ u ++ "/full/" ++ f2 := by
  intro h
  have hd := congrArg String.data h
  simp only [String.data_append, List.append_assoc] at hd
  have h2 := List.append_cancel_left hd
  simp only [List.cons_append, List.nil_append] at h2
  injection h2 with h1 h3
  injection h3 with h4 h5
  exact absurd h4 (by decide)

/-! Claim theorems. -/

/-- C6: generateStoragePaths is a pure function mapping (ownerId,
filename) to ownerId/previews/filename and ownerId/full/filename; it is
deterministic, two distinct filenames for the same owner never produce
colliding paths (in any of the four cross comparisons), and the preview
and full paths of one call are always distinct. -/
theorem claim_C6 (u f f1 f2 : String) (hne : f1 ≠ f2) :
    generateStoragePaths u f = generateStoragePaths u f ∧
    (generateStoragePaths u f).previewPath = u ++ "/previews/" ++ f ∧
    (generateStoragePaths u f).fullPath = u ++ "/full/" ++ f ∧
    (generateStoragePaths u f1).previewPath
      ≠ (generateStoragePaths u f2).previewPath ∧
    (generateStoragePaths u f1).fullPath
      ≠ (generateStoragePaths u f2).fullPath ∧
    (generateStoragePaths u f1).previewPath
      ≠ (generateStoragePaths u f2).fullPath ∧
    (generateStoragePaths u f2).previewPath
      ≠ (generateStoragePaths u f1).fullPath ∧
    (generateStoragePaths u f).previewPath
      ≠ (generateStoragePaths u f).fullPath := by
  refine ⟨rfl, rfl, rfl, ?_, ?_,
    previews_path_ne_full_path u f1 f2,
    previews_path_ne_full_path u f2 f1,
    previews_path_ne_full_path u f f⟩
  · exact fun h => hne (string_append_left_cancel u "/previews/" f1 f2 h)
  · exact fun h => hne (string_append_left_cancel u "/full/" f1 f2 h)

/-- Witness for C6 at a concrete owner and two concrete filenames. -/
theorem claim_C6_wit :
    generateStoragePaths "u1" "a.webp" = generateStoragePaths "u1" "a.webp" ∧
    (generateStoragePaths "u1" "a.webp").previewPath
      = "u1" ++ "/previews/" ++ "a.webp" ∧
    (generateStoragePaths "u1" "a.webp").fullPath
      = "u1" ++ "/full/" ++ "a.webp" ∧
    (generateStoragePaths "u1" "a.webp").previewPath
      ≠ (generateStoragePaths "u1" "b.webp").previewPath ∧
    (generateStoragePaths "u1" "a.webp").fullPath
      ≠ (generateStoragePaths "u1" "b.webp").fullPath ∧
    (generateStoragePaths "u1" "a.webp").previewPath
      ≠ (generateStoragePaths "u1" "b.webp").fullPath ∧
    (generateStoragePaths "u1" "b.webp").previewPath
      ≠ (generateStoragePaths "u1" "a.webp").fullPath ∧
    (generateStoragePaths "u1" "a.webp").previewPath
      ≠ (generateStoragePaths "u1" "a.webp").fullPath :=
  claim_C6 "u1" "a.webp" "a.webp" "b.webp" (by decide)

/-- C4: for an original of reported width W and height H, processImage
records the preview width as min PREVIEW_WIDTH W and the full width as min
FULL_WIDTH W (never above W nor above the configured maxima), and records
each height as the half-up rounding of targetWidth / W * H under exact
rational arithmetic. -/
theorem claim_C4 (cfg : Config) (meta : SharpMetadata) (sizes : EncodedSizes)
    (uid : String) (W H : Nat) (hW : meta.width = some W)
    (hH : meta.height = some H) (hpos : 0 < W) (hposH : 0 < H) :
    (processImage cfg meta sizes uid).preview.width
      = min cfg.PREVIEW_WIDTH W ∧
    (processImage cfg meta sizes uid).full.width = min cfg.FULL_WIDTH W ∧
    (processImage cfg meta sizes uid).preview.width ≤ W ∧
    (processImage cfg meta sizes uid).full.width ≤ W ∧
    (processImage cfg meta sizes uid).preview.width ≤ cfg.PREVIEW_WIDTH ∧
    (processImage cfg meta sizes uid).full.width ≤ cfg.FULL_WIDTH ∧
    (processImage cfg meta sizes uid).preview.height
      = ⌊((min cfg.PREVIEW_WIDTH W : ℕ) : ℚ) / W * H + 1 / 2⌋₊ ∧
    (processImage cfg meta sizes uid).full.height
      = ⌊((min cfg.FULL_WIDTH W : ℕ) : ℚ) / W * H + 1 / 2⌋₊ := by
  have hWne : W ≠ 0 := Nat.pos_iff_ne_zero.mp hpos
  have hHne : H ≠ 0 := Nat.pos_iff_ne_zero.mp hposH
  have key : ∀ t : Nat, jsRound (t * H) W = ⌊(t : ℚ) / W * H + 1 / 2⌋₊ := by
    intro t
    rw [jsRound_eq_floor _ _ hpos]
    congr 1
    push_cast
    ring
  unfold processImage
  simp only [hW, hH, jsOr, if_neg hWne, if_neg hHne]
  refine ⟨trivial, trivial, min_le_right _ _, min_le_right _ _,
    min_le_left _ _, min_le_left _ _, ?_, ?_⟩
  · exact key _
  · exact key _

/-- Witness for C4: a 4000 by 3000 original under the default
configuration yields a 300 by 225 preview and a 2000 by 1500 full
derivative. -/
theorem claim_C4_wit :
    (processImage defaultConfig ⟨some 4000, some 3000⟩ ⟨7, 9⟩ "x").preview.width
      = min 300 4000 ∧
    (processImage defaultConfig ⟨some 4000, some 3000⟩ ⟨7, 9⟩ "x").full.width
      = min 2000 4000 ∧
    (processImage defaultConfig ⟨some 4000, some 3000⟩ ⟨7, 9⟩ "x").preview.width ≤ 4000 ∧
    (processImage defaultConfig ⟨some 4000, some 3000⟩ ⟨7, 9⟩ "x").full.width ≤ 4000 ∧
    (processImage defaultConfig ⟨some 4000, some 3000⟩ ⟨7, 9⟩ "x").preview.width ≤ 300 ∧
    (processImage defaultConfig ⟨some 4000, some 3000⟩ ⟨7, 9⟩ "x").full.width ≤ 2000 ∧
    (processImage defaultConfig ⟨some 4000, some 3000⟩ ⟨7, 9⟩ "x").preview.height
      = ⌊((min 300 4000 : ℕ) : ℚ) / 4000 * 3000 + 1 / 2⌋₊ ∧
    (processImage defaultConfig ⟨some 4000, some 3000⟩ ⟨7, 9⟩ "x").full.height
      = ⌊((min 2000 4000 : ℕ) : ℚ) / 4000 * 3000 + 1 / 2⌋₊ :=
  claim_C4 defaultConfig ⟨some 4000, some 3000⟩ ⟨7, 9⟩ "x" 4000 3000 rfl rfl
    (by decide) (by decide)

/-- C9: when the decoder reports no dimensions, processImage does not
fail; it substitutes 1920 for the missing width and 1080 for the missing
height and computes both recorded derivative dimensions from those assumed
values. -/
theorem claim_C9 (cfg : Config) (sizes : EncodedSizes) (uid : String)
    (meta : SharpMetadata) (hw : meta.width = none) (hh : meta.height = none) :
    processImage cfg meta sizes uid =
      { preview := { width := min cfg.PREVIEW_WIDTH 1920
                     height := jsRound (min cfg.PREVIEW_WIDTH 1920 * 1080) 1920
                     size := sizes.previewSize }
        full := { width := min cfg.FULL_WIDTH 1920
                  height := jsRound (min cfg.FULL_WIDTH 1920 * 1080) 1920
                  size := sizes.fullSize }
        filename := uid ++ ".webp" } := by
  unfold processImage
  rw [hw, hh]
  rfl

/-- Witness for C9: with dimensions absent and the default configuration
the recorded preview is 300 by 169 and the recorded full derivative is
1920 by 1080. -/
theorem claim_C9_wit :
    processImage defaultConfig ⟨none, none⟩ ⟨7, 9⟩ "abc" =
      { preview := { width := 300, height := 169, size := 7 }
        full := { width := 1920, height := 1080, size := 9 }
        filename := "abc.webp" } :=
  claim_C9 defaultConfig ⟨7, 9⟩ "abc" ⟨none, none⟩ rfl rfl

/-- C10: deleteImage is owner scoped: when no row matches both the image
id and the user id the result is null and the table is unchanged; when
exactly one row matches, that row is owned by the given user, it is
removed, and its two storage paths are returned. -/
theorem claim_C10 (db : List ImageRow) (imageId userId : String) :
    ((∀ r ∈ db, ¬(r.id = imageId ∧ r.user_id = userId)) →
      deleteImage db imageId userId = (none, db)) ∧
    (∀ r, db.filter (fun x => x.id == imageId && x.user_id == userId) = [r] →
      deleteImage db imageId userId =
        (some (r.preview_path, r.full_path),
          db.filter (fun x => !(x.id == imageId && x.user_id == userId))) ∧
      r ∈ db ∧ r.id = imageId ∧ r.user_id = userId) := by
  constructor
  · intro hno
    have hfil : db.filter
        (fun x => x.id == imageId && x.user_id == userId) = [] := by
      rw [List.filter_eq_nil_iff]
      intro a ha hcon
      simp only [Bool.and_eq_true, beq_iff_eq] at hcon
      exact hno a ha hcon
    unfold deleteImage
    rw [hfil]
  · intro r hr
    have hmem : r ∈ db.filter
        (fun x => x.id == imageId && x.user_id == userId) := by
      rw [hr]
      exact List.mem_singleton.mpr rfl
    have hpred := List.of_mem_filter hmem
    simp only [Bool.and_eq_true, beq_iff_eq] at hpred
    refine ⟨?_, List.mem_of_mem_filter hmem, hpred.1, hpred.2⟩
    unfold deleteImage
    rw [hr]

/-- Witness for C10 at a concrete two-row table: deleting an owned image
removes exactly that row and returns its paths, and deleting with the
wrong user id returns null and leaves the table unchanged. -/
theorem claim_C10_wit :
    deleteImage
      [⟨"i1", "u1", "u1/previews/a.webp", "u1/full/a.webp"⟩,
       ⟨"i2", "u2", "u2/previews/b.webp", "u2/full/b.webp"⟩] "i1" "u1" =
      (some ("u1/previews/a.webp", "u1/full/a.webp"),
       [⟨"i2", "u2", "u2/previews/b.webp", "u2/full/b.webp"⟩]) ∧
    deleteImage
      [⟨"i1", "u1", "u1/previews/a.webp", "u1/full/a.webp"⟩,
       ⟨"i2", "u2", "u2/previews/b.webp", "u2/full/b.webp"⟩] "i1" "u2" =
      (none,
       [⟨"i1", "u1", "u1/previews/a.webp", "u1/full/a.webp"⟩,
        ⟨"i2", "u2", "u2/previews/b.webp", "u2/full/b.webp"⟩]) := by
  constructor
  · have h := ((claim_C10
      [⟨"i1", "u1", "u1/previews/a.webp", "u1/full/a.webp"⟩,
       ⟨"i2", "u2", "u2/previews/b.webp", "u2/full/b.webp"⟩] "i1" "u1").2
      ⟨"i1", "u1", "u1/previews/a.webp", "u1/full/a.webp"⟩ (by decide)).1
    exact h.trans (by decide)
  · exact (claim_C10
      [⟨"i1", "u1", "u1/previews/a.webp", "u1/full/a.webp"⟩,
       ⟨"i2", "u2", "u2/previews/b.webp", "u2/full/b.webp"⟩] "i1" "u2").1
      (by decide)

/-- C3: with an authenticated, non rate limited request carrying a file,
a disallowed MIME type or a size strictly over the configured maximum is
answered with the validation error and HTTP 400 before any storage or
database operation (empty event trace), while an allowed MIME type with
size at most the maximum (in particular exactly at the boundary) passes
validation. -/
theorem claim_C3 (cfg : Config) (env : UploadEnv) (s : Session) (f : FileInfo)
    (hs : env.session = some s) (hr : env.rateLimitOk = true)
    (hf : env.file = some f) :
    ((f.type ∉ ALLOWED_MIME_TYPES ∨ cfg.MAX_FILE_SIZE < f.size) →
      (postImages cfg env).1.success = false ∧
      (postImages cfg env).1.status = 400 ∧
      (postImages cfg env).1.error = (validateImageFile cfg f).error ∧
      (postImages cfg env).2 = []) ∧
    (f.type ∈ ALLOWED_MIME_TYPES → f.size ≤ cfg.MAX_FILE_SIZE →
      (validateImageFile cfg f).valid = true) := by
  constructor
  · intro hbad
    have hinvalid : (validateImageFile cfg f).valid = false := by
      by_cases hmem : f.type ∈ ALLOWED_MIME_TYPES
      · rcases hbad with hm | hsz
        · exact absurd hmem hm
        · simp [validateImageFile, hmem, hsz]
      · simp [validateImageFile, hmem]
    have hpost : postImages cfg env =
        ({ success := false, error := (validateImageFile cfg f).error
           dataImage := none, previewUrl := none, fullUrl := none
           status := 400 }, []) := by
      simp only [postImages, hs, hr, hf]
      simp [hinvalid]
    rw [hpost]
    exact ⟨rfl, rfl, rfl, rfl⟩
  · intro hm hsz
    simp [validateImageFile, hm, Nat.not_lt.mpr hsz]

/-- Witness for C3: one byte over the default 10 MiB limit is rejected
with HTTP 400 and an empty event trace, while a file exactly at the limit
passes validation. -/
theorem claim_C3_wit :
    ((postImages defaultConfig envC3).1.success = false ∧
     (postImages defaultConfig envC3).1.status = 400 ∧
     (postImages defaultConfig envC3).1.error
       = (validateImageFile defaultConfig fileOverLimit).error ∧
     (postImages defaultConfig envC3).2 = []) ∧
    (validateImageFile defaultConfig fileAtLimit).valid = true := by
  constructor
  · exact (claim_C3 defaultConfig envC3 ⟨"user1"⟩ fileOverLimit rfl rfl
      rfl).1 (Or.inr (by decide))
  · exact (claim_C3 defaultConfig envC3b ⟨"user1"⟩ fileAtLimit rfl rfl
      rfl).2 (by decide) (by decide)

/-- C1 counterexample: in a run where both uploads succeeded and the
metadata insert failed, the handler returns the metadata error without
issuing any object deletion, refuting the claimed compensating action. -/
theorem claim_C1_cex :
    envC1.uploadPreviewOk = true ∧ envC1.uploadFullOk = true ∧
    envC1.insertedId = none ∧
    (postImages defaultConfig envC1).1.error
      = some "Failed to save image metadata" ∧
    (postImages defaultConfig envC1).1.status = 500 ∧
    (postImages defaultConfig envC1).2.filter StoreEvent.isRemove = [] := by
  refine ⟨rfl, rfl, rfl, ?_, ?_, ?_⟩ <;> rfl

/-- C1 amended: if the metadata insert fails after both uploads
succeeded, the handler returns the metadata error with HTTP 500, no
deletion of the two just-uploaded objects is attempted, and exactly the
two upload operations and the one failed insert attempt appear in the
trace, so the two stored objects are left without an owning ImageRecord. -/
theorem claim_C1_amended (cfg : Config) (env : UploadEnv) (s : Session)
    (f : FileInfo) (m : SharpMetadata)
    (hs : env.session = some s) (hr : env.rateLimitOk = true)
    (hf : env.file = some f) (hv : (validateImageFile cfg f).valid = true)
    (hd : env.decoded = some m)
    (hu1 : env.uploadPreviewOk = true) (hu2 : env.uploadFullOk = true)
    (hins : env.insertedId = none) :
    (postImages cfg env).1 =
      { success := false, error := some "Failed to save image metadata"
        dataImage := none, previewUrl := none, fullUrl := none
        status := 500 } ∧
    (postImages cfg env).2.filter StoreEvent.isRemove = [] ∧
    ((postImages cfg env).2.filter StoreEvent.isUpload).length = 2 ∧
    ((postImages cfg env).2.filter StoreEvent.isInsert).length = 1 := by
  simp only [postImages, hs, hr, hf, hd, hu1, hu2, hins]
  simp [hv, saveImageMetadata, StoreEvent.isRemove, StoreEvent.isUpload,
    StoreEvent.isInsert]

/-- Witness for the amended C1 at the concrete environment envC1. -/
theorem claim_C1_amended_wit :
    (postImages defaultConfig envC1).1 =
      { success := false, error := some "Failed to save image metadata"
        dataImage := none, previewUrl := none, fullUrl := none
        status := 500 } ∧
    (postImages defaultConfig envC1).2.filter StoreEvent.isRemove = [] ∧
    ((postImages defaultConfig envC1).2.filter StoreEvent.isUpload).length
      = 2 ∧
    ((postImages defaultConfig envC1).2.filter StoreEvent.isInsert).length
      = 1 :=
  claim_C1_amended defaultConfig envC1 ⟨"user1"⟩
    ⟨"photo.jpg", "image/jpeg", 1000⟩ ⟨some 4000, some 3000⟩
    rfl rfl rfl (by decide) rfl rfl rfl rfl

/-- C2 counterexample: in a run where the preview upload succeeded and
the full upload failed, the handler returns the storage error without
issuing any object deletion, refuting the claimed compensating deletion of
the sibling object. -/
theorem claim_C2_cex :
    envC2.uploadPreviewOk = true ∧ envC2.uploadFullOk = false ∧
    (postImages defaultConfig envC2).1.error
      = some "Failed to upload image to storage" ∧
    (postImages defaultConfig envC2).1.status = 500 ∧
    (postImages defaultConfig envC2).2.filter StoreEvent.isInsert = [] ∧
    (postImages defaultConfig envC2).2.filter StoreEvent.isRemove = [] := by
  refine ⟨rfl, rfl, ?_, ?_, ?_, ?_⟩ <;> rfl

/-- C2 amended: if exactly one of the two uploads fails, ingestion fails
with the storage error and HTTP 500, no ImageRecord insert is attempted,
but no deletion of the sibling object that did succeed is attempted
either; both upload operations appear in the trace. -/
theorem claim_C2_amended (cfg : Config) (env : UploadEnv) (s : Session)
    (f : FileInfo) (m : SharpMetadata)
    (hs : env.session = some s) (hr : env.rateLimitOk = true)
    (hf : env.file = some f) (hv : (validateImageFile cfg f).valid = true)
    (hd : env.decoded = some m)
    (hx : (env.uploadPreviewOk = true ∧ env.uploadFullOk = false) ∨
          (env.uploadPreviewOk = false ∧ env.uploadFullOk = true)) :
    (postImages cfg env).1 =
      { success := false
        error := some "Failed to upload image to storage"
        dataImage := none, previewUrl := none, fullUrl := none
        status := 500 } ∧
    (postImages cfg env).2.filter StoreEvent.isInsert = [] ∧
    (postImages cfg env).2.filter StoreEvent.isRemove = [] ∧
    ((postImages cfg env).2.filter StoreEvent.isUpload).length = 2 := by
  rcases hx with ⟨h1, h2⟩ | ⟨h1, h2⟩ <;>
    simp only [postImages, hs, hr, hf, hd, h1, h2] <;>
    simp [hv, StoreEvent.isInsert, StoreEvent.isRemove, StoreEvent.isUpload]

/-- Witness for the amended C2 at the concrete environment envC2. -/
theorem claim_C2_amended_wit :
    (postImages defaultConfig envC2).1 =
      { success := false
        error := some "Failed to upload image to storage"
        dataImage := none, previewUrl := none, fullUrl := none
        status := 500 } ∧
    (postImages defaultConfig envC2).2.filter StoreEvent.isInsert = [] ∧
    (postImages defaultConfig envC2).2.filter StoreEvent.isRemove = [] ∧
    ((postImages defaultConfig envC2).2.filter StoreEvent.isUpload).length
      = 2 :=
  claim_C2_amended defaultConfig envC2 ⟨"user1"⟩
    ⟨"photo.jpg", "image/jpeg", 1000⟩ ⟨some 4000, some 3000⟩
    rfl rfl rfl (by decide) rfl (Or.inl ⟨rfl, rfl⟩)

/-- C5: in every execution, if the trace contains a metadata insert
attempt then both upload flags were successful, the first two trace events
are the two uploads, the insert is not among them, and no upload occurs
after them: the record insert happens only after both derivative uploads
completed successfully. -/
theorem claim_C5 (cfg : Config) (env : UploadEnv)
    (h : (postImages cfg env).2.any StoreEvent.isInsert = true) :
    env.uploadPreviewOk = true ∧ env.uploadFullOk = true ∧
    ((postImages cfg env).2.take 2).all StoreEvent.isUpload = true ∧
    ((postImages cfg env).2.take 2).any StoreEvent.isInsert = false ∧
    ((postImages cfg env).2.drop 2).all (fun e => !e.isUpload) = true := by
  obtain ⟨ses, rl, rlm, fl, dec, sz, uid, up, uf, ins, sb⟩ := env
  cases ses with
  | none => simp [postImages] at h
  | some s =>
    cases rl with
    | false => simp [postImages] at h
    | true =>
      cases fl with
      | none => simp [postImages] at h
      | some f =>
        by_cases hv : (validateImageFile cfg f).valid = true
        case neg =>
          simp only [Bool.not_eq_true] at hv
          simp [postImages, hv] at h
        case pos =>
          cases dec with
          | none => simp [postImages, hv, StoreEvent.isInsert] at h
          | some m =>
            cases up with
            | false => simp [postImages, hv, StoreEvent.isInsert] at h
            | true =>
              cases uf with
              | false => simp [postImages, hv, StoreEvent.isInsert] at h
              | true =>
                cases ins with
                | none =>
                  refine ⟨rfl, rfl, ?_, ?_, ?_⟩ <;>
                    simp [postImages, hv, saveImageMetadata,
                      StoreEvent.isUpload, StoreEvent.isInsert]
                | some rid =>
                  refine ⟨rfl, rfl, ?_, ?_, ?_⟩ <;>
                    simp [postImages, hv, saveImageMetadata,
                      StoreEvent.isUpload, StoreEvent.isInsert]

/-- Witness for C5 at the fully successful concrete environment envC5. -/
theorem claim_C5_wit :
    envC5.uploadPreviewOk = true ∧ envC5.uploadFullOk = true ∧
    ((postImages defaultConfig envC5).2.take 2).all StoreEvent.isUpload
      = true ∧
    ((postImages defaultConfig envC5).2.take 2).any StoreEvent.isInsert
      = false ∧
    ((postImages defaultConfig envC5).2.drop 2).all (fun e => !e.isUpload)
      = true :=
  claim_C5 defaultConfig envC5 (by decide)

/-- C7: an input that passes validation but cannot be decoded is answered
by the catch-all with HTTP 500 and the message Failed to upload image,
with an empty event trace (no storage upload, no metadata insert); this
message is distinct from the storage, metadata, authentication and
missing-file error messages. -/
theorem claim_C7 (cfg : Config) (env : UploadEnv) (s : Session)
    (f : FileInfo)
    (hs : env.session = some s) (hr : env.rateLimitOk = true)
    (hf : env.file = some f) (hv : (validateImageFile cfg f).valid = true)
    (hd : env.decoded = none) :
    (postImages cfg env).1 =
      { success := false, error := some "Failed to upload image"
        dataImage := none, previewUrl := none, fullUrl := none
        status := 500 } ∧
    (postImages cfg env).2 = [] ∧
    ("Failed to upload image" ≠ "Failed to upload image to storage") ∧
    ("Failed to upload image" ≠ "Failed to save image metadata") ∧
    ("Failed to upload image" ≠ "Unauthorized") ∧
    ("Failed to upload image" ≠ "No file provided") := by
  refine ⟨?_, ?_, by decide, by decide, by decide, by decide⟩ <;>
    simp only [postImages, hs, hr, hf, hd] <;> simp [hv]

/-- Witness for C7 at the concrete environment envC7 with an undecodable
zero-byte file. -/
theorem claim_C7_wit :
    (postImages defaultConfig envC7).1 =
      { success := false, error := some "Failed to upload image"
        dataImage := none, previewUrl := none, fullUrl := none
        status := 500 } ∧
    (postImages defaultConfig envC7).2 = [] ∧
    ("Failed to upload image" ≠ "Failed to upload image to storage") ∧
    ("Failed to upload image" ≠ "Failed to save image metadata") ∧
    ("Failed to upload image" ≠ "Unauthorized") ∧
    ("Failed to upload image" ≠ "No file provided") :=
  claim_C7 defaultConfig envC7 ⟨"user7"⟩ ⟨"garbage.gif", "image/gif", 0⟩
    rfl rfl rfl (by decide) rfl

/-- C8: once the metadata row is inserted, the handler succeeds with HTTP
200 and the created record for every signed url backend, including one
that always fails: a null url is mapped to the empty string instead of
failing the ingestion; both signed url requests use the default expiry of
3600 seconds, and getSignedUrl returns none rather than propagating a
backend error. -/
theorem claim_C8 (cfg : Config) (env : UploadEnv) (s : Session)
    (f : FileInfo) (m : SharpMetadata) (rid : String)
    (hs : env.session = some s) (hr : env.rateLimitOk = true)
    (hf : env.file = some f) (hv : (validateImageFile cfg f).valid = true)
    (hd : env.decoded = some m) (hu1 : env.uploadPreviewOk = true)
    (hu2 : env.uploadFullOk = true) (hins : env.insertedId = some rid) :
    (postImages cfg env).1.success = true ∧
    (postImages cfg env).1.status = 200 ∧
    (postImages cfg env).1.dataImage.map ImageRecord.id = some rid ∧
    (postImages cfg env).1.previewUrl = some ((getSignedUrl env.signBackend
      (generateStoragePaths s.userId (env.uniqueId ++ ".webp")).previewPath
      getSignedUrlDefaultExpiresIn).getD "") ∧
    (postImages cfg env).1.fullUrl = some ((getSignedUrl env.signBackend
      (generateStoragePaths s.userId (env.uniqueId ++ ".webp")).fullPath
      getSignedUrlDefaultExpiresIn).getD "") ∧
    (postImages cfg env).2.filter (fun e => !(e.isUpload || e.isInsert))
      = [StoreEvent.createSignedUrl
          (generateStoragePaths s.userId (env.uniqueId ++ ".webp")).previewPath
          3600,
         StoreEvent.createSignedUrl
          (generateStoragePaths s.userId (env.uniqueId ++ ".webp")).fullPath
          3600] ∧
    getSignedUrlDefaultExpiresIn = 3600 ∧
    (∀ e p t, getSignedUrl (fun _ _ => Except.error e) p t = none) := by
  simp only [postImages, hs, hr, hf, hd, hu1, hu2, hins]
  simp [hv, saveImageMetadata, processImage, generateStoragePaths,
    getSignedUrl, getSignedUrlDefaultExpiresIn, StoreEvent.isUpload,
    StoreEvent.isInsert]

/-- Witness for C8 at the concrete environment envC8 whose signed url
backend always fails: ingestion still succeeds and both urls degrade to
the empty string. -/
theorem claim_C8_wit :
    (postImages defaultConfig envC8).1.success = true ∧
    (postImages defaultConfig envC8).1.status = 200 ∧
    (postImages defaultConfig envC8).1.dataImage.map ImageRecord.id
      = some "img8" ∧
    (postImages defaultConfig envC8).1.previewUrl
      = some ((getSignedUrl envC8.signBackend
        (generateStoragePaths "user8" ("uid8" ++ ".webp")).previewPath
        getSignedUrlDefaultExpiresIn).getD "") ∧
    (postImages defaultConfig envC8).1.fullUrl
      = some ((getSignedUrl envC8.signBackend
        (generateStoragePaths "user8" ("uid8" ++ ".webp")).fullPath
        getSignedUrlDefaultExpiresIn).getD "") ∧
    (postImages defaultConfig envC8).2.filter
        (fun e => !(e.isUpload || e.isInsert))
      = [StoreEvent.createSignedUrl
          (generateStoragePaths "user8" ("uid8" ++ ".webp")).previewPath
          3600,
         StoreEvent.createSignedUrl
          (generateStoragePaths "user8" ("uid8" ++ ".webp")).fullPath
          3600] ∧
    getSignedUrlDefaultExpiresIn = 3600 ∧
    (∀ e p t, getSignedUrl (fun _ _ => Except.error e) p t = none) :=
  claim_C8 defaultConfig envC8 ⟨"user8"⟩ ⟨"w.webp", "image/webp", 4096⟩
    ⟨some 4000, some 3000⟩ "img8" rfl rfl rfl (by decide) rfl rfl rfl rfl

end Photovault
